import Mathlib

/-!
Verification development for the clean-coast backend (FastAPI service that
predicts marine-debris accumulation at named beach sites and aggregates the
persisted predictions for a dashboard).

The relevant Python sources are shallowly embedded here:
  * `api/routes/trash.py`   — per-site prediction, classification, and the
    cache-first per-date batch route `get_beach_predictions`;
  * `api/routes/dashboard.py` — risk/action classification, monthly change
    rate and the six-point trailing trend;
  * `fetch/fetchers.py`     — response processing of the current fetch
    (nearest grid sample) and the wind fetch (mean over valid readings);
  * `models/beach_prediction.py`, `models/beach.py` — the ORM row shapes.

Python floats are modelled as rationals (ℚ); network/database effects are
modelled by explicit oracle parameters and explicit state passing; a Python
exception is an `Except PyErr` error value.
-/

/-- Python exception values that the embedded code can raise.  The source
raises bare `Exception(...)` for data problems (which the design document
classifies as NoDataError / ProviderError), and the interpreter itself
raises `TypeError` / `AttributeError` / `ValueError` for bad calls,
missing attributes and bad enum values. -/
inductive PyErr where
  | typeError (msg : String)
  | attributeError (msg : String)
  | valueError (msg : String)
  | exception (msg : String)
  deriving DecidableEq, Repr

/-- Decidable equality for `Except` values, used to evaluate concrete runs
of the embedded functions. -/
instance {e a : Type} [DecidableEq e] [DecidableEq a] : DecidableEq (Except e a) := fun x y =>
  match x, y with
  | .ok u, .ok v =>
    if h : u = v then .isTrue (by rw [h]) else .isFalse (fun hh => h (Except.ok.inj hh))
  | .error u, .error v =>
    if h : u = v then .isTrue (by rw [h]) else .isFalse (fun hh => h (Except.error.inj hh))
  | .ok _, .error _ => .isFalse (fun hh => Except.noConfusion hh)
  | .error _, .ok _ => .isFalse (fun hh => Except.noConfusion hh)

/-- Per-record status labels, `TrashStatus` in api/routes/trash.py. -/
inductive TrashStatus where
  | LOW
  | MEDIUM
  | HIGH
  deriving DecidableEq, Repr

/-- The `status.value` string of a `TrashStatus` member. -/
def TrashStatus.toStr : TrashStatus → String
  | .LOW => "LOW"
  | .MEDIUM => "MEDIUM"
  | .HIGH => "HIGH"

/-- Embedding of the Python enum call `TrashStatus(s)` used at
api/routes/trash.py line 222: yields the member whose value is `s`, and
raises `ValueError` for any other string. -/
def TrashStatus.ofStr (s : String) : Except PyErr TrashStatus :=
  if s = "LOW" then .ok .LOW
  else if s = "MEDIUM" then .ok .MEDIUM
  else if s = "HIGH" then .ok .HIGH
  else .error (.valueError "not a valid TrashStatus")

/-- Dashboard risk levels, `RiskLevel` in api/routes/dashboard.py. -/
inductive RiskLevel where
  | HIGH
  | MEDIUM
  | LOW
  deriving DecidableEq, Repr

/-- Dashboard action types, `ActionType` in api/routes/dashboard.py
(IMMEDIATE = immediate collection, MONITOR = enhanced monitoring,
REGULAR = regular inspection, WATCH = watch). -/
inductive ActionType where
  | IMMEDIATE
  | MONITOR
  | REGULAR
  | WATCH
  deriving DecidableEq, Repr

/-- Status classification of a predicted mass, from the end of
`calculate_trash_prediction` (api/routes/trash.py lines 100-105). -/
def statusOf (trash_amount : ℚ) : TrashStatus :=
  if trash_amount < 200 then .LOW
  else if trash_amount < 300 then .MEDIUM
  else .HIGH

/-- Embedding of `calculate_risk_level` (api/routes/dashboard.py lines 62-69). -/
def calculate_risk_level (trash_amount : ℚ) : RiskLevel :=
  if trash_amount ≥ 400 then .HIGH
  else if trash_amount ≥ 250 then .MEDIUM
  else .LOW

/-- Embedding of `calculate_action_type` (api/routes/dashboard.py lines 72-81). -/
def calculate_action_type (trash_amount : ℚ) : ActionType :=
  if trash_amount ≥ 400 then .IMMEDIATE
  else if trash_amount ≥ 300 then .MONITOR
  else if trash_amount ≥ 200 then .REGULAR
  else .WATCH

/-- Embedding of the previous-month change-rate computation
(api/routes/dashboard.py lines 135-138): `(cur - prev) / prev * 100` when
the previous-month sum is positive, and `0.0` otherwise. -/
def change_rate (last_month_total current_total : ℚ) : ℚ :=
  if last_month_total > 0 then
    (current_total - last_month_total) / last_month_total * 100
  else 0

/-- C6: for every predicted mass the three classification tables hold
exactly as specified, boundaries included: per-record status is LOW iff
mass < 200, MEDIUM iff 200 ≤ mass < 300, HIGH iff mass ≥ 300; dashboard
risk level is HIGH iff mass ≥ 400, MEDIUM iff 250 ≤ mass < 400, LOW iff
mass < 250; dashboard action is IMMEDIATE_COLLECTION iff mass ≥ 400,
ENHANCED_MONITORING iff 300 ≤ mass < 400, REGULAR_INSPECTION iff
200 ≤ mass < 300, WATCH iff mass < 200. -/
theorem classification_tables_exact (m : ℚ) :
    (statusOf m = .LOW ↔ m < 200) ∧
    (statusOf m = .MEDIUM ↔ 200 ≤ m ∧ m < 300) ∧
    (statusOf m = .HIGH ↔ 300 ≤ m) ∧
    (calculate_risk_level m = .HIGH ↔ 400 ≤ m) ∧
    (calculate_risk_level m = .MEDIUM ↔ 250 ≤ m ∧ m < 400) ∧
    (calculate_risk_level m = .LOW ↔ m < 250) ∧
    (calculate_action_type m = .IMMEDIATE ↔ 400 ≤ m) ∧
    (calculate_action_type m = .MONITOR ↔ 300 ≤ m ∧ m < 400) ∧
    (calculate_action_type m = .REGULAR ↔ 200 ≤ m ∧ m < 300) ∧
    (calculate_action_type m = .WATCH ↔ m < 200) := by
  unfold statusOf calculate_risk_level calculate_action_type
  refine ⟨?_, ?_, ?_, ?_, ?_, ?_, ?_, ?_, ?_, ?_⟩ <;>
    split_ifs <;> simp_all <;> (try intro h) <;> (try constructor) <;> linarith

/-- C9: the previous-month change rate equals `(cur - prev) / prev * 100`
when `prev > 0` and `0` otherwise; in particular `prev = 0, cur = 500`
yields `0` (no division error) and `prev = 1000, cur = 1100` yields `10`. -/
theorem change_rate_spec (prev cur : ℚ) :
    (0 < prev → change_rate prev cur = (cur - prev) / prev * 100) ∧
    (prev ≤ 0 → change_rate prev cur = 0) ∧
    change_rate 0 500 = 0 ∧
    change_rate 1000 1100 = 10 := by
  unfold change_rate
  constructor
  · intro h
    simp [h]
  constructor
  · intro h
    rw [if_neg (by linarith)]
  constructor
  · norm_num
  · norm_num

/-- Witness for `change_rate_spec`: instantiated at the two concrete pairs
of the claim, all hypotheses discharged. -/
theorem change_rate_spec_witness :
    change_rate 1000 1100 = (1100 - 1000) / 1000 * 100 ∧ change_rate 0 500 = 0 :=
  ⟨(change_rate_spec 1000 1100).1 (by norm_num),
   (change_rate_spec 0 500).2.1 (by norm_num)⟩

/-!
Embedding of `fetch_current` response processing (fetch/fetchers.py lines
45-70).  The HTTP transport and JSON parsing are upstream of the logic under
test; a malformed response (missing `result`/`data`) is modelled as `none`,
a parsed one as `some` list of grid samples.  The source raises bare
`Exception`s; the design document classifies the message
"응답 데이터 형식이 올바르지 않습니다" (here "invalid response format") and
"유효한 데이터가 없습니다" (here "no valid data") as NoDataError.
-/

/-- One grid sample of the current-service response.  A JSON field that is
absent is `none` (the source checks key presence with `in`). -/
structure CurrentDatum where
  current_dir : Option ℚ
  current_speed : Option ℚ
  pre_lat : Option ℚ
  pre_lon : Option ℚ
  deriving DecidableEq, Repr

/-- The field-presence check of fetch/fetchers.py lines 53-56: the sample
must carry a direction, a speed and both coordinates. -/
def hasCurrentFields (d : CurrentDatum) : Bool :=
  d.current_dir.isSome && d.current_speed.isSome && d.pre_lat.isSome && d.pre_lon.isSome

/-- Squared Euclidean distance in (lat, lon) space between the query point
and a sample (fetch/fetchers.py line 61 computes `np.sqrt` of exactly this
quantity; the square root is strictly monotone on nonnegatives, so every
comparison performed on it — and hence the selected sample — is unchanged
when comparing the squares, which keeps the definition executable over ℚ). -/
def dist2 (lat lot : ℚ) (d : CurrentDatum) : ℚ :=
  (lat - d.pre_lat.getD 0) * (lat - d.pre_lat.getD 0)
    + (lot - d.pre_lon.getD 0) * (lot - d.pre_lon.getD 0)

/-- One iteration of the selection loop (fetch/fetchers.py lines 52-65).
The accumulator couples `min_distance` and `closest_data`, which the source
initialises to infinity and `None` together: `none` is that initial state,
in which any valid sample is accepted (`distance < inf` always holds). -/
def selectStep (lat lot : ℚ) (acc : Option (ℚ × CurrentDatum)) (d : CurrentDatum) :
    Option (ℚ × CurrentDatum) :=
  if hasCurrentFields d then
    match acc with
    | none => some (dist2 lat lot d, d)
    | some (m, c) => if dist2 lat lot d < m then some (dist2 lat lot d, d) else some (m, c)
  else acc

/-- The selection loop of fetch/fetchers.py lines 49-65. -/
def selectClosest (lat lot : ℚ) (ds : List CurrentDatum) : Option (ℚ × CurrentDatum) :=
  ds.foldl (selectStep lat lot) none

/-- Embedding of the response processing of `fetch_current`
(fetch/fetchers.py lines 45-70): malformed response raises, otherwise the
loop selects the closest valid sample, raising when none qualifies. -/
def fetch_current_result (lat lot : ℚ) (data : Option (List CurrentDatum)) :
    Except PyErr (ℚ × ℚ) :=
  match data with
  | none => .error (.exception "invalid response format")
  | some ds =>
    match selectClosest lat lot ds with
    | none => .error (.exception "no valid data")
    | some (_, c) => .ok (c.current_dir.getD 0, c.current_speed.getD 0)

/-- The samples that carry all required fields, in response order. -/
def validCurrentData (ds : List CurrentDatum) : List CurrentDatum :=
  ds.filter hasCurrentFields

/-- The minimality test of the claim: `x` is at distance less than or equal
to every sample of `L`. -/
def minTest (lat lot : ℚ) (L : List CurrentDatum) (x : CurrentDatum) : Bool :=
  L.all (fun d => dist2 lat lot x ≤ dist2 lat lot d)

/-- Claim-side selection, written from the specification words: among the
valid samples, the first one (in response order) whose distance to the
query point is less than or equal to every valid sample's distance — i.e.
the minimum-distance candidate with ties resolved to the first. -/
def firstNearest (lat lot : ℚ) (ds : List CurrentDatum) : Option CurrentDatum :=
  (validCurrentData ds).find? (minTest lat lot (validCurrentData ds))

/-- Claim-side rendering of `fetch_current`, from the specification words. -/
def fetch_current_claim (lat lot : ℚ) (data : Option (List CurrentDatum)) :
    Except PyErr (ℚ × ℚ) :=
  match data with
  | none => .error (.exception "invalid response format")
  | some ds =>
    match firstNearest lat lot ds with
    | none => .error (.exception "no valid data")
    | some c => .ok (c.current_dir.getD 0, c.current_speed.getD 0)

/-- Recursive form of the selection loop once a first candidate is held:
a later sample replaces the current best only when strictly closer. -/
def selGo (lat lot : ℚ) (c : CurrentDatum) (vs : List CurrentDatum) : CurrentDatum :=
  match vs with
  | [] => c
  | d :: rest =>
    if dist2 lat lot d < dist2 lat lot c then selGo lat lot d rest else selGo lat lot c rest

theorem find?_ext {α : Type} (p q : α → Bool) (h : ∀ x, p x = q x) (l : List α) :
    l.find? p = l.find? q := by
  have hpq : p = q := funext h
  rw [hpq]

theorem foldl_selectStep_filter (lat lot : ℚ) (ds : List CurrentDatum) :
    ∀ acc, ds.foldl (selectStep lat lot) acc
      = (validCurrentData ds).foldl (selectStep lat lot) acc := by
  induction ds with
  | nil => intro acc; rfl
  | cons d rest ih =>
    intro acc
    by_cases hd : hasCurrentFields d
    · simp only [validCurrentData, List.filter_cons, hd, List.foldl_cons]
      exact ih _
    · simp only [validCurrentData, List.filter_cons, hd, List.foldl_cons]
      simp only [Bool.false_eq_true, if_false]
      have : selectStep lat lot acc d = acc := by
        simp [selectStep, hd]
      rw [this]
      exact ih acc

theorem foldl_selectStep_some (lat lot : ℚ) (vs : List CurrentDatum) :
    ∀ c, (∀ x ∈ vs, hasCurrentFields x) →
      vs.foldl (selectStep lat lot) (some (dist2 lat lot c, c))
        = some (dist2 lat lot (selGo lat lot c vs), selGo lat lot c vs) := by
  induction vs with
  | nil => intro c _; rfl
  | cons d rest ih =>
    intro c hval
    have hd : hasCurrentFields d = true := hval d (by simp)
    have hrest : ∀ x ∈ rest, hasCurrentFields x := fun x hx => hval x (by simp [hx])
    simp only [List.foldl_cons, selectStep, hd, if_true, selGo]
    by_cases hlt : dist2 lat lot d < dist2 lat lot c
    · rw [if_pos hlt, if_pos hlt]
      exact ih d hrest
    · rw [if_neg hlt, if_neg hlt]
      exact ih c hrest

theorem minTest_true_iff (lat lot : ℚ) (L : List CurrentDatum) (x : CurrentDatum) :
    minTest lat lot L x = true ↔ ∀ e ∈ L, dist2 lat lot x ≤ dist2 lat lot e := by
  simp [minTest, List.all_eq_true]

theorem find?_first_argmin (lat lot : ℚ) :
    ∀ (vs : List CurrentDatum) (c : CurrentDatum),
      (c :: vs).find? (minTest lat lot (c :: vs)) = some (selGo lat lot c vs) := by
  intro vs
  induction vs with
  | nil =>
    intro c
    have hpos : minTest lat lot [c] c = true := by
      rw [minTest_true_iff]
      intro e he
      simp only [List.mem_singleton] at he
      subst he
      exact le_refl _
    rw [List.find?_cons_of_pos _ hpos]
    rfl
  | cons d rest ih =>
    intro c
    by_cases hdc : dist2 lat lot d < dist2 lat lot c
    · -- the held candidate c is strictly beaten by d: c fails the test, and
      -- on later elements the tests with and without c agree
      have hneg : ¬ minTest lat lot (c :: d :: rest) c = true := by
        rw [minTest_true_iff]
        intro hall
        exact absurd (hall d (by simp)) (not_le.mpr hdc)
      rw [List.find?_cons_of_neg _ hneg]
      have hpt : ∀ x, minTest lat lot (c :: d :: rest) x = minTest lat lot (d :: rest) x := by
        intro x
        by_cases h2 : dist2 lat lot x ≤ dist2 lat lot d
        · have h1 : dist2 lat lot x ≤ dist2 lat lot c :=
            le_of_lt (lt_of_le_of_lt h2 hdc)
          simp [minTest, h1, h2]
        · simp [minTest, h2]
      rw [find?_ext _ _ hpt (d :: rest), ih d]
      simp [selGo, hdc]
    · have hcdd : dist2 lat lot c ≤ dist2 lat lot d := le_of_not_lt hdc
      by_cases htail : ∀ e ∈ rest, dist2 lat lot c ≤ dist2 lat lot e
      · -- c is a global minimum: find? keeps it and selGo never drops it
        have hpos : minTest lat lot (c :: d :: rest) c = true := by
          rw [minTest_true_iff]
          intro e he
          rcases List.mem_cons.mp he with h | h
          · subst h
            exact le_refl _
          rcases List.mem_cons.mp h with h2 | h2
          · subst h2
            exact hcdd
          · exact htail e h2
        rw [List.find?_cons_of_pos _ hpos]
        have hpos2 : minTest lat lot (c :: rest) c = true := by
          rw [minTest_true_iff]
          intro e he
          rcases List.mem_cons.mp he with h | h
          · subst h
            exact le_refl _
          · exact htail e h
        have hIH := ih c
        rw [List.find?_cons_of_pos _ hpos2] at hIH
        have hsel : selGo lat lot c rest = c := (Option.some.inj hIH).symm
        simp [selGo, hdc, hsel]
      · -- some tail element strictly beats c: both sides skip c and d and
        -- continue into the tail with pointwise-equal tests
        push_neg at htail
        obtain ⟨w, hw_mem, hw⟩ := htail
        have hnegc : ¬ minTest lat lot (c :: d :: rest) c = true := by
          rw [minTest_true_iff]
          intro hall
          exact absurd (hall w (by simp [hw_mem])) (not_le.mpr hw)
        have hnegd : ¬ minTest lat lot (c :: d :: rest) d = true := by
          rw [minTest_true_iff]
          intro hall
          have hwd : dist2 lat lot w < dist2 lat lot d := lt_of_lt_of_le hw hcdd
          exact absurd (hall w (by simp [hw_mem])) (not_le.mpr hwd)
        rw [List.find?_cons_of_neg _ hnegc, List.find?_cons_of_neg _ hnegd]
        have hpt2 : ∀ x, minTest lat lot (c :: d :: rest) x = minTest lat lot (c :: rest) x := by
          intro x
          by_cases h1 : dist2 lat lot x ≤ dist2 lat lot c
          · have h2 : dist2 lat lot x ≤ dist2 lat lot d := le_trans h1 hcdd
            simp [minTest, h1, h2]
          · simp [minTest, h1]
        rw [find?_ext _ _ hpt2 rest]
        have hnegc2 : ¬ minTest lat lot (c :: rest) c = true := by
          rw [minTest_true_iff]
          intro hall
          exact absurd (hall w (by simp [hw_mem])) (not_le.mpr hw)
        have hIH := ih c
        rw [List.find?_cons_of_neg _ hnegc2] at hIH
        rw [hIH]
        simp [selGo, hdc]

theorem selectClosest_eq (lat lot : ℚ) (ds : List CurrentDatum) :
    selectClosest lat lot ds
      = (firstNearest lat lot ds).map (fun c => (dist2 lat lot c, c)) := by
  unfold selectClosest firstNearest
  rw [foldl_selectStep_filter]
  have hval : ∀ x ∈ validCurrentData ds, hasCurrentFields x := fun x hx =>
    (List.mem_filter.mp hx).2
  cases hv : validCurrentData ds with
  | nil => simp
  | cons v rest =>
    have hvv : hasCurrentFields v := hval v (by rw [hv]; simp)
    have hvrest : ∀ x ∈ rest, hasCurrentFields x := fun x hx =>
      hval x (by rw [hv]; simp [hx])
    rw [List.foldl_cons]
    have hstep : selectStep lat lot none v = some (dist2 lat lot v, v) := by
      simp [selectStep, hvv]
    rw [hstep, foldl_selectStep_some lat lot rest v hvrest,
      find?_first_argmin lat lot rest v]
    rfl

theorem fetch_current_eq_claim (lat lot : ℚ) (data : Option (List CurrentDatum)) :
    fetch_current_result lat lot data = fetch_current_claim lat lot data := by
  cases data with
  | none => rfl
  | some ds =>
    simp only [fetch_current_result, fetch_current_claim, selectClosest_eq]
    cases hfn : firstNearest lat lot ds <;> simp [hfn]

/-- Grid sample at Euclidean distance 2 from the origin query point. -/
def tieSampleFar : CurrentDatum := ⟨some 111, some 11, some 2, some 0⟩

/-- Grid sample at Euclidean distance 1/2, first of the two tied ones. -/
def tieSampleB : CurrentDatum := ⟨some 222, some 22, some 0, some (1/2)⟩

/-- Grid sample at Euclidean distance 1/2, second of the two tied ones. -/
def tieSampleC : CurrentDatum := ⟨some 333, some 33, some (1/2), some 0⟩

/-- C7: the embedded `fetch_current` selection agrees everywhere with the
specification-side selection (only samples carrying direction, speed and
both coordinates are considered; the minimum-Euclidean-distance one is
returned, ties resolving to the first in response order), it fails on a
malformed response, an empty sample list and a list with no fully-populated
sample, and on the concrete tie scenario with (squared) distances
4, 1/4, 1/4 — i.e. Euclidean distances 2, 1/2, 1/2 — it returns the first
sample at distance 1/2. -/
theorem fetch_current_selection :
    (∀ lat lot data, fetch_current_result lat lot data = fetch_current_claim lat lot data) ∧
    fetch_current_result 0 0 none = .error (.exception "invalid response format") ∧
    fetch_current_result 0 0 (some []) = .error (.exception "no valid data") ∧
    fetch_current_result 0 0 (some [⟨none, some 1, some 0, some 0⟩])
      = .error (.exception "no valid data") ∧
    (dist2 0 0 tieSampleFar = 4 ∧ dist2 0 0 tieSampleB = 1 / 4 ∧
      dist2 0 0 tieSampleC = 1 / 4) ∧
    fetch_current_result 0 0 (some [tieSampleFar, tieSampleB, tieSampleC])
      = .ok (222, 22) := by
  refine ⟨fetch_current_eq_claim, rfl, rfl, by decide, ?_, ?_⟩
  · refine ⟨?_, ?_, ?_⟩ <;>
      norm_num [dist2, tieSampleFar, tieSampleB, tieSampleC]
  · norm_num [fetch_current_result, selectClosest, selectStep, hasCurrentFields,
      dist2, tieSampleFar, tieSampleB, tieSampleC]

/-!
Embedding of `fetch_wind` response processing (fetch/fetchers.py lines
95-125).  The station lookup, HTTP transport and JSON parsing are upstream;
the parsed response carries the header result code and message and the list
of readings.  A reading field that is absent from the JSON object and a
field that is null are both `none` (the source skips a reading in either
case, lines 114-117).
-/

/-- One wind reading of the response body. -/
structure WindItem where
  wndrct : Option ℚ
  wspd : Option ℚ
  deriving DecidableEq, Repr

/-- A parsed wind response: header result code / message and the readings. -/
structure WindResponse where
  resultCode : String
  resultMsg : String
  items : List WindItem
  deriving DecidableEq, Repr

/-- One iteration of the averaging loop (fetch/fetchers.py lines 113-120):
a reading with both direction and speed present adds to both totals and to
the count; any other reading is skipped. -/
def windStep (acc : ℚ × ℚ × ℕ) (item : WindItem) : ℚ × ℚ × ℕ :=
  if item.wndrct.isSome && item.wspd.isSome then
    (acc.1 + item.wndrct.getD 0, acc.2.1 + item.wspd.getD 0, acc.2.2 + 1)
  else acc

/-- Embedding of the response processing of `fetch_wind` (fetch/fetchers.py
lines 97-125): a header result code other than "00" raises the provider
error, zero valid readings raise "no valid data", and otherwise the sums
divided by the count are returned. -/
def fetch_wind_result (resp : WindResponse) : Except PyErr (ℚ × ℚ) :=
  if resp.resultCode ≠ "00" then
    .error (.exception ("API error: " ++ resp.resultMsg))
  else
    let acc := resp.items.foldl windStep (0, 0, 0)
    if acc.2.2 = 0 then .error (.exception "no valid data")
    else .ok (acc.1 / (acc.2.2 : ℚ), acc.2.1 / (acc.2.2 : ℚ))

/-- The readings whose direction and speed are both present and non-null. -/
def validWindItems (items : List WindItem) : List WindItem :=
  items.filter (fun i => i.wndrct.isSome && i.wspd.isSome)

/-- Claim-side rendering of `fetch_wind`, from the specification words: the
arithmetic mean of direction and of speed over exactly the valid readings. -/
def fetch_wind_claim (resp : WindResponse) : Except PyErr (ℚ × ℚ) :=
  if resp.resultCode ≠ "00" then
    .error (.exception ("API error: " ++ resp.resultMsg))
  else
    let vs := validWindItems resp.items
    if vs.length = 0 then .error (.exception "no valid data")
    else .ok (((vs.map (fun i => i.wndrct.getD 0)).sum) / (vs.length : ℚ),
              ((vs.map (fun i => i.wspd.getD 0)).sum) / (vs.length : ℚ))

theorem windStep_foldl (items : List WindItem) : ∀ a b n,
    items.foldl windStep (a, b, n)
      = (a + ((validWindItems items).map (fun i => i.wndrct.getD 0)).sum,
         b + ((validWindItems items).map (fun i => i.wspd.getD 0)).sum,
         n + (validWindItems items).length) := by
  induction items with
  | nil =>
    intro a b n
    simp [validWindItems]
  | cons hd tl ih =>
    intro a b n
    rw [List.foldl_cons]
    by_cases h : (hd.wndrct.isSome && hd.wspd.isSome) = true
    · have hstep : windStep (a, b, n) hd
          = (a + hd.wndrct.getD 0, b + hd.wspd.getD 0, n + 1) := by
        simp [windStep, h]
      have hfil : validWindItems (hd :: tl) = hd :: validWindItems tl := by
        simp [validWindItems, List.filter_cons, h]
      rw [hstep, ih, hfil]
      simp only [List.map_cons, List.sum_cons, List.length_cons, Prod.mk.injEq]
      refine ⟨by ring, by ring, by omega⟩
    · have hstep : windStep (a, b, n) hd = (a, b, n) := by
        simp [windStep, h]
      have hfil : validWindItems (hd :: tl) = validWindItems tl := by
        simp only [validWindItems, List.filter_cons]
        simp [h]
      rw [hstep, ih, hfil]

theorem fetch_wind_eq_claim (resp : WindResponse) :
    fetch_wind_result resp = fetch_wind_claim resp := by
  unfold fetch_wind_result fetch_wind_claim
  by_cases hc : resp.resultCode ≠ "00"
  · rw [if_pos hc, if_pos hc]
  · rw [if_neg hc, if_neg hc]
    rw [windStep_foldl]
    dsimp only
    simp only [zero_add]

/-- The scenario of the claim: five readings of which two have a null
speed, so the three remaining valid readings are averaged. -/
def windExample : WindResponse :=
  { resultCode := "00", resultMsg := "NORMAL SERVICE",
    items := [⟨some 10, some 1⟩, ⟨some 99, none⟩, ⟨some 20, some 2⟩,
              ⟨some 100, none⟩, ⟨some 30, some 3⟩] }

/-- C8: whenever the embedded result code is the success code "00",
`fetch_wind` returns the arithmetic mean of direction and of speed over
exactly the readings with both fields present and non-null; it fails with
the no-data error when zero valid readings remain, and with the provider
error when the result code is not "00".  On five readings of which two
have a null speed, the means are over the three valid readings. -/
theorem fetch_wind_mean_over_valid :
    (∀ resp, fetch_wind_result resp = fetch_wind_claim resp) ∧
    (∀ resp : WindResponse, resp.resultCode ≠ "00" →
        fetch_wind_result resp = .error (.exception ("API error: " ++ resp.resultMsg))) ∧
    (∀ resp : WindResponse, resp.resultCode = "00" → validWindItems resp.items = [] →
        fetch_wind_result resp = .error (.exception "no valid data")) ∧
    windExample.items.length = 5 ∧
    (validWindItems windExample.items).length = 3 ∧
    fetch_wind_result windExample = .ok ((10 + 20 + 30) / 3, (1 + 2 + 3) / 3) := by
  refine ⟨fetch_wind_eq_claim, ?_, ?_, by decide, by decide, ?_⟩
  · intro resp h
    simp [fetch_wind_result, h]
  · intro resp h hval
    rw [fetch_wind_eq_claim]
    simp [fetch_wind_claim, h, hval]
  · norm_num [fetch_wind_result, windStep, windExample]

/-- Wind response with a non-success header result code. -/
def windFailureExample : WindResponse := ⟨"03", "AUTH FAILED", []⟩

/-- Wind response with the success code but no valid reading. -/
def windNoDataExample : WindResponse := ⟨"00", "NORMAL SERVICE", [⟨none, some 5⟩]⟩

/-- Witness for `fetch_wind_mean_over_valid`: the two error conjuncts
instantiated at concrete responses, hypotheses discharged concretely. -/
theorem fetch_wind_mean_over_valid_witness :
    fetch_wind_result windFailureExample
      = .error (.exception ("API error: " ++ windFailureExample.resultMsg)) ∧
    fetch_wind_result windNoDataExample = .error (.exception "no valid data") :=
  ⟨fetch_wind_mean_over_valid.2.1 windFailureExample (by decide),
   fetch_wind_mean_over_valid.2.2.1 windNoDataExample rfl (by decide)⟩

/-!
Embedding of the cache-first batch route `get_beach_predictions`
(api/routes/trash.py lines 163-291) and its per-site computation
`calculate_trash_prediction` (lines 51-107).  External calls are an
explicit oracle (`FetchEnv`); the committed database state is passed and
returned explicitly.  Three Python-level facts of the source are part of
the embedding, each derived from a copied name list rather than assumed:
  * the call `fetchers.fetch_wind(date_obj, latitude, longitude)` at line
    65 passes three positional arguments to a function defined with two
    parameters (fetch/fetchers.py line 72) — `TypeError`;
  * the module fetch/fetchers.py defines no `fetch_temperature`, so the
    lookup at line 244 raises `AttributeError` (caught, line 245-247);
  * the class `BeachPrediction` (models/beach_prediction.py) declares no
    `temperature` column, so the constructor keyword at line 257 raises
    `TypeError` and the attribute read at line 223 raises `AttributeError`.
-/

/-- A calendar date (year, month, day).  The datetime's time-of-day part is
never inspected by the embedded code paths, so one type serves for both
`date` and `datetime` values. -/
structure CalDate where
  year : Int
  month : Nat
  day : Nat
  deriving DecidableEq, Repr

/-- A registered beach site (models/beach.py). -/
structure Beach where
  name : String
  latitude : ℚ
  longitude : ℚ
  deriving DecidableEq, Repr

/-- A persisted row of the `beach_predictions` table.  Its fields are the
columns declared by `BeachPrediction` in models/beach_prediction.py (the
auto-increment id and created_at bookkeeping are omitted); the class
declares NO temperature column. -/
structure BeachPredictionRow where
  beach_name : String
  prediction_date : CalDate
  latitude : ℚ
  longitude : ℚ
  trash_amount : ℚ
  status : String
  current_dir : Option ℚ
  current_speed : Option ℚ
  wind_dir : Option ℚ
  wind_speed : Option ℚ
  deriving DecidableEq, Repr

/-- The response item `BeachPredictionResponse` (api/routes/trash.py lines
42-48); the date is kept structured rather than strftime-formatted. -/
structure BeachPredictionResponse where
  name : String
  date : CalDate
  latitude : ℚ
  longitude : ℚ
  trash_amount : ℚ
  status : TrashStatus
  temperature : ℚ
  deriving DecidableEq, Repr

/-- The oracle for the external world: the two fetchers that exist, the
temperature fetcher the specification describes (reachable only if the
module defined it), and the regression model.  `predict` — modelled from
the spec: core/predict.py (`predict_by_vector`) is not under src/; the
specification describes the model as an opaque pure scalar function, so the
trigonometric feature decomposition (transcendental, not representable
over ℚ) and the model are folded into one opaque function of the fetched
values; it sits in code made unreachable by the `fetch_wind` arity error. -/
structure FetchEnv where
  fetch_current : CalDate → ℚ → ℚ → Except PyErr (ℚ × ℚ)
  fetch_wind : ℚ → ℚ → Except PyErr (ℚ × ℚ)
  fetch_temperature : CalDate → ℚ → ℚ → Except PyErr ℚ
  predict : CalDate → ℚ → ℚ → ℚ → ℚ → ℚ

/-- The function names defined by module fetch/fetchers.py: only
`fetch_current` and `fetch_wind` exist; there is no `fetch_temperature`. -/
def fetchersModuleAttrs : List String := ["fetch_current", "fetch_wind"]

/-- Parameter list of `def fetch_wind(lat, lot)` (fetch/fetchers.py line 72). -/
def fetch_wind_params : List String := ["lat", "lot"]

/-- Number of positional arguments at the call
`fetchers.fetch_wind(date_obj, latitude, longitude)` (api/routes/trash.py
line 65). -/
def windCallArgCount : Nat := 3

/-- Embedding of the call expression at api/routes/trash.py line 65.
Python raises `TypeError` when more positional arguments are passed than
the callee has parameters; only with a matching arity would the body run
(that branch is unreachable here because 3 > 2, so the argument binding
chosen for it is immaterial). -/
def call_fetch_wind (env : FetchEnv) (_dateObj : CalDate) (latitude longitude : ℚ) :
    Except PyErr (ℚ × ℚ) :=
  if windCallArgCount ≤ fetch_wind_params.length then
    env.fetch_wind latitude longitude
  else
    .error (.typeError "fetch_wind takes 2 positional arguments but 3 were given")

/-- Embedding of `calculate_trash_prediction` (api/routes/trash.py lines
51-107): fetch the current, call `fetch_wind` (which raises, see
`call_fetch_wind`), and only then build the features, predict and classify. -/
def calculate_trash_prediction (env : FetchEnv) (dateObj : CalDate)
    (latitude longitude : ℚ) : Except PyErr (ℚ × TrashStatus) := do
  let cur ← env.fetch_current dateObj latitude longitude
  let wind ← call_fetch_wind env dateObj latitude longitude
  let trash_amount := env.predict dateObj cur.1 cur.2 wind.1 wind.2
  return (trash_amount, statusOf trash_amount)

/-- The class attributes (columns) declared by `BeachPrediction` in
models/beach_prediction.py — `temperature` is not among them. -/
def beachPredictionColumns : List String :=
  ["id", "beach_name", "prediction_date", "latitude", "longitude",
   "trash_amount", "status", "current_dir", "current_speed", "wind_dir",
   "wind_speed", "created_at"]

/-- The keyword-argument names used to construct `BeachPrediction` at
api/routes/trash.py lines 250-258. -/
def beachPredictionCtorKwargs : List String :=
  ["beach_name", "prediction_date", "latitude", "longitude", "trash_amount",
   "status", "temperature"]

/-- Embedding of the constructor call `BeachPrediction(...)` at
api/routes/trash.py lines 250-258: the SQLAlchemy declarative constructor
raises `TypeError` when a keyword is not an attribute of the class, which
is the case for `temperature`, so the row of the other branch is never
produced.  The columns not passed at the call site default to NULL. -/
def constructBeachPrediction (name : String) (d : CalDate) (lat lon amount : ℚ)
    (st : String) (_temperature : Option ℚ) : Except PyErr BeachPredictionRow :=
  if beachPredictionCtorKwargs.all (fun k => beachPredictionColumns.contains k) then
    .ok { beach_name := name, prediction_date := d, latitude := lat,
          longitude := lon, trash_amount := amount, status := st,
          current_dir := none, current_speed := none, wind_dir := none,
          wind_speed := none }
  else
    .error (.typeError "temperature is an invalid keyword argument for BeachPrediction")

/-- Embedding of `fetchers.fetch_temperature(date_obj, latitude, longitude)`
at api/routes/trash.py line 244: the module defines no `fetch_temperature`,
so the attribute lookup raises `AttributeError`; the oracle field stands in
for the body the specification describes, in the unreachable branch. -/
def call_fetch_temperature (env : FetchEnv) (dateObj : CalDate)
    (latitude longitude : ℚ) : Except PyErr ℚ :=
  if fetchersModuleAttrs.contains "fetch_temperature" then
    env.fetch_temperature dateObj latitude longitude
  else
    .error (.attributeError "module fetch.fetchers has no attribute fetch_temperature")

/-- Embedding of the attribute read `pred.temperature` at
api/routes/trash.py line 223: `BeachPrediction` declares no temperature
column, so the read raises `AttributeError` (the `.ok` branch is
unreachable and its value immaterial). -/
def readCachedTemperature (_pred : BeachPredictionRow) : Except PyErr ℚ :=
  if beachPredictionColumns.contains "temperature" then .ok 0
  else .error (.attributeError "BeachPrediction object has no attribute temperature")

/-- Python truthiness conditional `x if x else 0.0` on an optional float:
`None` and `0.0` are falsy. -/
def pyFloatOrZero (x : Option ℚ) : ℚ :=
  match x with
  | none => 0
  | some v => if v = 0 then 0 else v

/-- The loop over cached rows in the complete-cache branch
(api/routes/trash.py lines 211-224).  The keyword expressions of the
response constructor are evaluated in source order: `TrashStatus(pred.status)`
(line 222) runs before the `pred.temperature` read (line 223). -/
def buildCachedResponses (preds : List BeachPredictionRow) :
    Except PyErr (List BeachPredictionResponse) :=
  preds.mapM (fun pred => do
    let st ← TrashStatus.ofStr pred.status
    let t ← readCachedTemperature pred
    return { name := pred.beach_name, date := pred.prediction_date,
             latitude := pred.latitude, longitude := pred.longitude,
             trash_amount := pred.trash_amount, status := st,
             temperature := pyFloatOrZero (some t) })

/-- One iteration of the per-beach recompute loop (api/routes/trash.py
lines 234-279): predict, then best-effort temperature (a failure there is
caught and replaced by None, lines 243-247), then construct the pending row
(db.add, line 259) and the response item (lines 262-274).  Any other raise
makes the orchestrator skip this beach (lines 276-279). -/
def processBeach (env : FetchEnv) (dateObj targetDate : CalDate) (beach : Beach) :
    Except PyErr (BeachPredictionRow × BeachPredictionResponse) := do
  let pred ← calculate_trash_prediction env dateObj beach.latitude beach.longitude
  let temperature : Option ℚ :=
    match call_fetch_temperature env dateObj beach.latitude beach.longitude with
    | .ok t => some t
    | .error _ => none
  let row ← constructBeachPrediction beach.name targetDate beach.latitude
    beach.longitude pred.1 pred.2.toStr temperature
  return (row, { name := beach.name, date := targetDate,
                 latitude := beach.latitude, longitude := beach.longitude,
                 trash_amount := pred.1, status := pred.2,
                 temperature := pyFloatOrZero temperature })

/-- The per-beach loop of the recompute branch, accumulating pending rows
and response items of the successful sites in order. -/
def recomputeLoop (env : FetchEnv) (dateObj targetDate : CalDate)
    (beaches : List Beach) :
    List BeachPredictionRow × List BeachPredictionResponse :=
  beaches.foldl
    (fun acc beach =>
      match processBeach env dateObj targetDate beach with
      | .ok rr => (acc.1 ++ [rr.1], acc.2 ++ [rr.2])
      | .error _ => acc)
    ([], [])

/-- Python set equality of the two name collections
(`cached_beach_names == all_beach_names`, api/routes/trash.py line 209). -/
def namesEqAsSets (a b : List String) : Bool :=
  a.all (fun x => b.contains x) && b.all (fun x => a.contains x)

/-- Embedding of the route body `get_beach_predictions`
(api/routes/trash.py lines 163-291) for an already-parsed target date,
returning the committed database state after the call together with the
outcome.  Transaction semantics modelled from SQLAlchemy: the bulk delete
(line 230) and the adds (line 259) act inside the open transaction,
`db.commit()` (line 282) makes them permanent, and the `db.rollback()` of
the handler (line 290) discards only uncommitted work — a raise before
line 282 leaves the committed state unchanged, a raise after it does not
restore it. -/
def get_beach_predictions (env : FetchEnv) (beaches : List Beach)
    (db : List BeachPredictionRow) (dateObj targetDate : CalDate) :
    List BeachPredictionRow × Except PyErr (List BeachPredictionResponse) :=
  if beaches.isEmpty then
    (db, .error (.exception "no beach data in DB"))
  else
    let cached_predictions := db.filter (fun r => r.prediction_date == targetDate)
    let cached_beach_names := cached_predictions.map (fun r => r.beach_name)
    let all_beach_names := beaches.map (fun b => b.name)
    if namesEqAsSets cached_beach_names all_beach_names then
      match buildCachedResponses cached_predictions with
      | .error e => (db, .error e)
      | .ok results =>
        if results.isEmpty then (db, .error (.exception "all beach predictions failed"))
        else (db, .ok results)
    else
      let remaining := db.filter (fun r => !(r.prediction_date == targetDate))
      let ar := recomputeLoop env dateObj targetDate beaches
      let committed := remaining ++ ar.1
      if ar.2.isEmpty then
        (committed, .error (.exception "all beach predictions failed"))
      else (committed, .ok ar.2)

theorem calculate_always_error (env : FetchEnv) (dateObj : CalDate)
    (latitude longitude : ℚ) :
    ∃ e, calculate_trash_prediction env dateObj latitude longitude = .error e := by
  unfold calculate_trash_prediction
  cases hc : env.fetch_current dateObj latitude longitude with
  | error e =>
    exact ⟨e, rfl⟩
  | ok cur =>
    exact ⟨.typeError "fetch_wind takes 2 positional arguments but 3 were given", rfl⟩

theorem processBeach_never_ok (env : FetchEnv) (dateObj targetDate : CalDate)
    (beach : Beach) :
    ∃ e, processBeach env dateObj targetDate beach = .error e := by
  obtain ⟨e, he⟩ := calculate_always_error env dateObj beach.latitude beach.longitude
  refine ⟨e, ?_⟩
  unfold processBeach
  rw [he]
  rfl

theorem recomputeLoop_empty (env : FetchEnv) (dateObj targetDate : CalDate)
    (beaches : List Beach) :
    recomputeLoop env dateObj targetDate beaches = ([], []) := by
  unfold recomputeLoop
  induction beaches with
  | nil => rfl
  | cons b bs ih =>
    rw [List.foldl_cons]
    obtain ⟨e, he⟩ := processBeach_never_ok env dateObj targetDate b
    simp only [he]
    exact ih

/-- C1: `fetch_wind` is defined with exactly two parameters while the
per-site computation passes it three positional arguments, so whenever the
preceding current fetch succeeds the computation raises `TypeError` before
the feature vector is built; it never succeeds for any oracle, and the
per-date recompute loop therefore produces no record and no response item
for any registry and any date. -/
theorem wind_call_arity_type_error :
    fetch_wind_params.length = 2 ∧
    windCallArgCount = 3 ∧
    (∀ (env : FetchEnv) (dateObj : CalDate) (latitude longitude : ℚ) (cur : ℚ × ℚ),
        env.fetch_current dateObj latitude longitude = .ok cur →
        calculate_trash_prediction env dateObj latitude longitude
          = .error (.typeError "fetch_wind takes 2 positional arguments but 3 were given")) ∧
    (∀ (env : FetchEnv) (dateObj : CalDate) (latitude longitude : ℚ) (r : ℚ × TrashStatus),
        calculate_trash_prediction env dateObj latitude longitude ≠ .ok r) ∧
    (∀ (env : FetchEnv) (dateObj targetDate : CalDate) (beaches : List Beach),
        recomputeLoop env dateObj targetDate beaches = ([], [])) := by
  refine ⟨rfl, rfl, ?_, ?_, recomputeLoop_empty⟩
  · intro env dateObj latitude longitude cur h
    unfold calculate_trash_prediction
    rw [h]
    rfl
  · intro env dateObj latitude longitude r hok
    obtain ⟨e, he⟩ := calculate_always_error env dateObj latitude longitude
    rw [he] at hok
    exact Except.noConfusion hok

/-- An oracle whose external calls all succeed with fixed values. -/
def envOk : FetchEnv :=
  { fetch_current := fun _ _ _ => .ok (45, 2),
    fetch_wind := fun _ _ => .ok (90, 5),
    fetch_temperature := fun _ _ _ => .ok 18,
    predict := fun _ _ _ _ _ => 250 }

/-- The target date of the concrete scenarios. -/
def d0 : CalDate := ⟨2025, 3, 10⟩

/-- Witness for `wind_call_arity_type_error`: its hypothesis-bearing
conjunct applied at an all-succeeding oracle and a concrete site. -/
theorem wind_call_arity_type_error_witness :
    calculate_trash_prediction envOk d0 33 126
      = .error (.typeError "fetch_wind takes 2 positional arguments but 3 were given") :=
  wind_call_arity_type_error.2.2.1 envOk d0 33 126 (45, 2) rfl

/-- A three-site registry for the concrete scenarios. -/
def beachA : Beach := ⟨"hyeopjae", 33, 126⟩

/-- Second site of the concrete registry. -/
def beachB : Beach := ⟨"gwakji", 34, 127⟩

/-- Third site of the concrete registry. -/
def beachC : Beach := ⟨"iho", 35, 128⟩

/-- The concrete three-site registry. -/
def registry3 : List Beach := [beachA, beachB, beachC]

/-- A stored record for site `beachA` on `d0`: a partial record set for
that date (one of three sites present). -/
def rowA : BeachPredictionRow :=
  { beach_name := "hyeopjae", prediction_date := d0, latitude := 33,
    longitude := 126, trash_amount := 150, status := "LOW",
    current_dir := none, current_speed := none, wind_dir := none,
    wind_speed := none }

/-- Stored record for site `beachB` on `d0`. -/
def rowB : BeachPredictionRow :=
  { beach_name := "gwakji", prediction_date := d0, latitude := 34,
    longitude := 127, trash_amount := 250, status := "MEDIUM",
    current_dir := none, current_speed := none, wind_dir := none,
    wind_speed := none }

/-- Stored record for site `beachC` on `d0`. -/
def rowC : BeachPredictionRow :=
  { beach_name := "iho", prediction_date := d0, latitude := 35,
    longitude := 128, trash_amount := 320, status := "HIGH",
    current_dir := none, current_speed := none, wind_dir := none,
    wind_speed := none }

/-- A complete stored set for date `d0` against the three-site registry. -/
def fullDb : List BeachPredictionRow := [rowA, rowB, rowC]

/-- C2 (refuting evidence): with one partial record stored for the date and
a three-site registry, a recompute in which every site fails does signal a
batch failure, but the stored state is NOT unchanged and the delete is NOT
rolled back: the date's records are gone afterwards, because the source
commits (api/routes/trash.py line 282) before the zero-success check (line
284), so the handler's rollback (line 290) has nothing left to undo; an
empty record set for the date is left behind. -/
theorem batch_failure_commits_delete :
    rowA.prediction_date = d0 ∧
    (get_beach_predictions envOk registry3 [rowA] d0 d0).2
      = .error (.exception "all beach predictions failed") ∧
    (get_beach_predictions envOk registry3 [rowA] d0 d0).1 = [] := by
  refine ⟨rfl, ?_, ?_⟩ <;> decide

/-- C4 (refuting evidence): with a complete stored set for the date the
route performs no delete and no insert (the returned state is exactly the
input state) and its outcome does not depend on the observation oracle at
all (no external calls are made) — but instead of returning the stored
records it raises `AttributeError` while reading `pred.temperature`, a
column the `BeachPrediction` model does not declare, so the caller gets an
internal error, identically on every repeated call. -/
theorem complete_cache_raises_attribute_error :
    namesEqAsSets (fullDb.map (fun r => r.beach_name))
        (registry3.map (fun b => b.name)) = true ∧
    (∀ env : FetchEnv,
      get_beach_predictions env registry3 fullDb d0 d0
        = (fullDb,
           .error (.attributeError "BeachPrediction object has no attribute temperature"))) := by
  refine ⟨by decide, fun env => rfl⟩

/-- An oracle with good observation data for the first two sites and a
failing current service for the third — the claim's two-of-three scenario. -/
def envTwoGood : FetchEnv :=
  { fetch_current := fun _ lat _ =>
      if lat = 35 then .error (.exception "API request failed: 500") else .ok (45, 2),
    fetch_wind := fun _ _ => .ok (90, 5),
    fetch_temperature := fun _ _ _ => .error (.exception "temperature service down"),
    predict := fun _ _ _ _ _ => 250 }

/-- C5 (refuting evidence): with the three-site registry, an empty stored
set for the date, and an oracle delivering good data for two of the three
sites, the recompute stores zero records — not two — and signals a batch
failure (every per-site computation raises the `fetch_wind` arity
`TypeError`); a subsequent call for the same date finds the set still
incomplete, takes the recompute path again, and ends the same way. -/
theorem recompute_stores_no_records :
    registry3.length = 3 ∧
    get_beach_predictions envTwoGood registry3 [] d0 d0
      = ([], .error (.exception "all beach predictions failed")) ∧
    get_beach_predictions envTwoGood registry3
        (get_beach_predictions envTwoGood registry3 [] d0 d0).1 d0 d0
      = ([], .error (.exception "all beach predictions failed")) := by
  refine ⟨rfl, ?_, ?_⟩ <;> decide

/-- C3 (refuting evidence): the temperature lookup always fails (the
fetchers module defines no `fetch_temperature`), yet the record promised by
the claim is never produced: the `BeachPrediction` constructor always
raises `TypeError` because the model class has no temperature column, so
the per-site step can never return a row — independently of how the
observation oracle behaves, the site is skipped rather than persisted with
temperature omitted. -/
theorem temperature_failure_site_still_skipped :
    (∀ (env : FetchEnv) (dateObj : CalDate) (latitude longitude : ℚ),
        call_fetch_temperature env dateObj latitude longitude
          = .error (.attributeError
              "module fetch.fetchers has no attribute fetch_temperature")) ∧
    (∀ (name : String) (d : CalDate) (lat lon amount : ℚ) (st : String)
        (t : Option ℚ),
        constructBeachPrediction name d lat lon amount st t
          = .error (.typeError
              "temperature is an invalid keyword argument for BeachPrediction")) ∧
    (∀ (env : FetchEnv) (dateObj targetDate : CalDate) (beach : Beach)
        (rr : BeachPredictionRow × BeachPredictionResponse),
        processBeach env dateObj targetDate beach ≠ .ok rr) := by
  refine ⟨fun env dateObj latitude longitude => rfl,
          fun name d lat lon amount st t => rfl, ?_⟩
  intro env dateObj targetDate beach rr hok
  obtain ⟨e, he⟩ := processBeach_never_ok env dateObj targetDate beach
  rw [he] at hok
  exact Except.noConfusion hok

/-!
Embedding of the trailing-trend computation of the dashboard
(api/routes/dashboard.py lines 190-213).  Python `datetime.date` values are
proleptic Gregorian; `timedelta` subtraction is day-exact, modelled by the
standard civil-date/day-number conversions.
-/

/-- Day number of a proleptic Gregorian date (days since 1970-01-01). -/
def daysFromCivil (dt : CalDate) : Int :=
  let y : Int := if dt.month ≤ 2 then dt.year - 1 else dt.year
  let era : Int := Int.fdiv y 400
  let yoe : Int := y - era * 400
  let mp : Int := Int.emod ((dt.month : Int) + 9) 12
  let doy : Int := Int.fdiv (153 * mp + 2) 5 + (dt.day : Int) - 1
  let doe : Int := yoe * 365 + Int.fdiv yoe 4 - Int.fdiv yoe 100 + doy
  era * 146097 + doe - 719468

/-- Proleptic Gregorian date of a day number (inverse of `daysFromCivil`). -/
def civilFromDays (z0 : Int) : CalDate :=
  let z := z0 + 719468
  let era : Int := Int.fdiv z 146097
  let doe : Nat := (z - era * 146097).toNat
  let yoe : Nat := (doe - doe / 1460 + doe / 36524 - doe / 146096) / 365
  let y : Int := (yoe : Int) + era * 400
  let doy : Nat := doe - (365 * yoe + yoe / 4 - yoe / 100)
  let mp : Nat := (5 * doy + 2) / 153
  let d : Nat := doy - (153 * mp + 2) / 5 + 1
  let m : Nat := if mp < 10 then mp + 3 else mp - 9
  { year := if m ≤ 2 then y + 1 else y, month := m, day := d }

/-- Python `date - timedelta(days=n)`. -/
def subDays (dt : CalDate) (n : Int) : CalDate :=
  civilFromDays (daysFromCivil dt - n)

/-- English month names (api/routes/dashboard.py lines 192-193). -/
def month_names : List String :=
  ["Jan", "Feb", "Mar", "Apr", "May", "Jun",
   "Jul", "Aug", "Sep", "Oct", "Nov", "Dec"]

/-- One point of the monthly-trend response (api/routes/dashboard.py
lines 40-43). -/
structure MonthlyTrend where
  month : String
  year : Int
  total_amount : ℚ
  deriving DecidableEq, Repr

/-- Sum of stored masses over the records whose prediction date falls in
the given calendar year and month (the SQL sum filtered by the year and
month extracts, api/routes/dashboard.py lines 200-207; the NULL total of
an empty selection becomes 0.0 at line 207). -/
def monthSum (y : Int) (m : Nat) (records : List BeachPredictionRow) : ℚ :=
  ((records.filter (fun r => r.prediction_date.year == y
      && r.prediction_date.month == m)).map (fun r => r.trash_amount)).sum

/-- Round half to even at two decimals: Python `round(x, 2)` applied to the
exact rational value (the source applies it to each bucket total for
display, api/routes/dashboard.py line 212). -/
def round2 (q : ℚ) : ℚ :=
  let shifted := q * 100
  let f : Int := ⌊shifted⌋
  let frac : ℚ := shifted - (f : ℚ)
  let r : Int :=
    if frac < 1 / 2 then f
    else if frac > 1 / 2 then f + 1
    else if f % 2 = 0 then f else f + 1
  (r : ℚ) / 100

/-- The six-point trailing-trend loop (api/routes/dashboard.py lines
190-213): `for i in range(5, -1, -1)` computes the approximate date
`today - timedelta(days=30*i)` and appends that date's calendar
year/month bucket. -/
def monthly_trends (today : CalDate) (records : List BeachPredictionRow) :
    List MonthlyTrend :=
  [5, 4, 3, 2, 1, 0].foldl
    (fun acc (i : Nat) =>
      let target_date := subDays today (30 * (i : Int))
      acc ++ [{ month := month_names.getD (target_date.month - 1) "",
                year := target_date.year,
                total_amount :=
                  round2 (monthSum target_date.year target_date.month records) }])
    []

/-- Claim-side rendering: exactly six points, for i = 5, 4, 3, 2, 1, 0 in
that order, each derived from the approximate date `today - 30·i days`. -/
def monthly_trends_claim (today : CalDate) (records : List BeachPredictionRow) :
    List MonthlyTrend :=
  ([5, 4, 3, 2, 1, 0] : List Nat).map
    (fun i =>
      let target_date := subDays today (30 * (i : Int))
      { month := month_names.getD (target_date.month - 1) "",
        year := target_date.year,
        total_amount :=
          round2 (monthSum target_date.year target_date.month records) })

/-- C10: the trailing trend consists of exactly six points, for
i = 5, 4, 3, 2, 1, 0 in that order, each bucketed by the calendar year and
month of the approximate date `today - 30·i` days (30-day stepping, not
calendar-month arithmetic) and valued by the display-rounded sum of stored
masses over that calendar bucket; for today = 2025-12-18 the six
approximate dates are 2025-07-21 (-150d), 2025-08-20 (-120d),
2025-09-19 (-90d), 2025-10-19 (-60d), 2025-11-18 (-30d), 2025-12-18 (-0d),
so the buckets are 2025-07 through 2025-12. -/
theorem monthly_trends_six_30day_buckets :
    (∀ today records,
        monthly_trends today records = monthly_trends_claim today records) ∧
    (∀ today records, (monthly_trends today records).length = 6) ∧
    ([5, 4, 3, 2, 1, 0] : List Nat).map
        (fun i => subDays ⟨2025, 12, 18⟩ (30 * (i : Int)))
      = [⟨2025, 7, 21⟩, ⟨2025, 8, 20⟩, ⟨2025, 9, 19⟩, ⟨2025, 10, 19⟩,
         ⟨2025, 11, 18⟩, ⟨2025, 12, 18⟩] := by
  refine ⟨fun today records => rfl, fun today records => rfl, by decide⟩
